import Mathlib

/-!
Verification of the forms-backend submission pipeline and Discord client.

This file shallowly embeds the two source files of the repository,
`backend/discord.py` and `backend/routes/forms/submit.py`, as executable
Lean definitions and proves the specification claims about them.

Modelling conventions:
* Python strings are Lean `String`; `str.replace` is re-implemented
  faithfully (`pyReplaceStr`) so that it can be reasoned about.
* Python dicts that are used as ordered key/value maps are association
  lists `List (String × _)`; key membership is `List.lookup`.
* Python `None` for an answer value is `Option.none` (`PyVal`).
* Exceptions are `Except PyError _`.  An `async` HTTP call is modelled by
  a server script `Nat → HttpResponse` giving the response to the n-th
  request actually issued; a Python coroutine object is one-shot, so
  awaiting it a second time is the distinguished error
  `PyError.runtimeReuseAwaited` (CPython raises
  `RuntimeError: cannot reuse already awaited coroutine`).
* External collaborators that are not part of the two source files
  (the store, the CAPTCHA service, the grading service, the pydantic
  `FormResponse` validator, uuid/clock) are parameters of the pipeline,
  as §1 of the specification directs.
-/

set_option autoImplicit false

/-! ## Python string primitives -/

/-- `listStartsWith pat s` is true when `pat` is an initial segment of `s`. -/
def listStartsWith : List Char → List Char → Bool
  | [], _ => true
  | _ :: _, [] => false
  | p :: ps, c :: cs => p == c && listStartsWith ps cs

/-- `occursIn pat s` is true when `pat` occurs contiguously inside `s`
(Python's `pat in s`). -/
def occursIn (pat : List Char) : List Char → Bool
  | [] => pat.isEmpty
  | c :: rest => listStartsWith pat (c :: rest) || occursIn pat rest

/-- One fueled left-to-right scan of Python `str.replace`: at each position,
if the pattern matches, emit the replacement and skip the pattern, otherwise
keep the character.  `fuel = s.length` suffices for a non-empty pattern. -/
def replaceFuel (pat rep : List Char) : Nat → List Char → List Char
  | 0, s => s
  | _ + 1, [] => []
  | n + 1, c :: rest =>
    if listStartsWith pat (c :: rest) then
      rep ++ replaceFuel pat rep n (List.drop pat.length (c :: rest))
    else
      c :: replaceFuel pat rep n rest

/-- Python `s.replace(pat, rep)` on character lists, including the
empty-pattern case (`"ab".replace("", "X") = "XaXbX"`). -/
def pyReplace (s pat rep : List Char) : List Char :=
  if pat.isEmpty then rep ++ s.foldr (fun c acc => c :: (rep ++ acc)) []
  else replaceFuel pat rep s.length s

/-- Python `s.replace(pat, rep)` on `String`. -/
def pyReplaceStr (s pat rep : String) : String :=
  ⟨pyReplace s.data pat.data rep.data⟩

/-- Python `pat in s` on `String`. -/
def occursInStr (pat s : String) : Bool :=
  occursIn pat.data s.data

/-! ## Data model

The `Form`, `FormResponse` and user models live in `backend/models`,
outside the two source files; the fields below are exactly those the two
source files read, with types as the specification's §3 data model gives
them. -/

/-- The identity payload of an authenticated user
(`request.user.payload` / `FormResponse.user`): the two source files read
its `id`, `avatar` and `email`-presence. -/
structure UserPayload where
  id : String
  avatar : Option String
  hasEmail : Bool
  deriving DecidableEq

/-- `request.user`: Starlette's acting user.  An anonymous user has no
`discord_mention` attribute; reading it raises `AttributeError`, which both
webhook builders catch, so the attribute is an `Option`. -/
structure ActingUser where
  is_authenticated : Bool
  discord_mention : Option String
  display_name : String
  payload : UserPayload
  deriving DecidableEq

/-- A form question: `id`, `required`, and the keys of its opaque `data`
dict (the pipeline only tests `"unittests" in question.data`). -/
structure Question where
  id : String
  required : Bool
  data : List String
  deriving DecidableEq

/-- A form's webhook configuration. -/
structure Webhook where
  url : String
  message : Option String
  deriving DecidableEq

/-- The `Form` model fields read by the two source files. -/
structure Form where
  id : String
  name : String
  features : List String
  questions : List Question
  webhook : Option Webhook
  discord_role : Option String
  dm_message : Option String
  deriving DecidableEq

/-- A Python answer value: `none` is Python `None`, otherwise an opaque
serialized value. -/
abbrev PyVal := Option String

/-- The anti-spam block recorded on a response. -/
structure Antispam where
  ip_hash : String
  user_agent_hash : String
  captcha_pass : Bool
  deriving DecidableEq

/-- The `FormResponse` fields read or written by the two source files. -/
structure FormResponse where
  id : String
  form_id : String
  response : List (String × PyVal)
  user : Option UserPayload
  antispam : Option Antispam
  timestamp : String
  deriving DecidableEq

/-- One grading outcome from the unittest collaborator. -/
structure TestResult where
  passed : Bool
  return_code : Int
  result : String
  deriving DecidableEq

/-- Python truthiness of an optional string (`None` and `""` are falsy). -/
def pyTruthy : Option String → Bool
  | none => false
  | some s => !s.isEmpty

/-- Python `f"{x}"` for an optional string: `None` prints as `"None"`. -/
def pyStrOfOption : Option String → String
  | none => "None"
  | some s => s

/-! ## ContextFormatter (`backend/discord.py`) -/

/-- `build_ctx_variables` (discord.py lines 76-93): the template context.
The `AttributeError` fallback makes `user` the mention when present, else
the literal `"User"`. -/
def build_ctx_variables (form : Form) (response : FormResponse) (user : ActingUser) :
    List (String × String) :=
  [("user", user.discord_mention.getD "User"),
   ("response_id", response.id),
   ("form", form.name),
   ("form_id", form.id),
   ("time", response.timestamp)]

/-- `format_message` (discord.py lines 96-100): for each context entry in
order, replace every occurrence of the braced key with the value. -/
def format_message (ctx : List (String × String)) (message : String) : String :=
  ctx.foldl (fun m kv => pyReplaceStr m ("\x7b" ++ kv.1 ++ "\x7d") kv.2) message

/-- Boolean check that a template contains no placeholder of the context. -/
def noPlaceholder (ctx : List (String × String)) (t : String) : Bool :=
  ctx.all (fun kv => !occursInStr ("\x7b" ++ kv.1 ++ "\x7d") t)

/-! ## RateLimitedClient (`backend/discord.py`, `make_request`) -/

/-- Python-level failures observable in the embedded code. -/
inductive PyError where
  /-- `httpx.HTTPStatusError` raised by `Response.raise_for_status`. -/
  | httpStatusError (status : Nat)
  /-- `RuntimeError: cannot reuse already awaited coroutine`. -/
  | runtimeReuseAwaited
  /-- `KeyError` on a missing response header. -/
  | keyError (key : String)
  /-- `ValueError` raised explicitly by the code. -/
  | valueError (msg : String)
  /-- `AttributeError` from calling a method on `None`. -/
  | attributeError (attr : String)
  deriving DecidableEq

/-- An HTTP response as the two source files observe it: a status code,
headers, and the value of `.json().get("id")` when the body is read. -/
structure HttpResponse where
  status : Nat
  headers : List (String × String)
  jsonId : Option String
  deriving DecidableEq

/-- `httpx.Response.raise_for_status`: 4xx/5xx statuses raise
`HTTPStatusError`. -/
def raise_for_status (resp : HttpResponse) : Except PyError HttpResponse :=
  if 400 ≤ resp.status then .error (.httpStatusError resp.status) else .ok resp

/-- The state of the single coroutine `request = client.request(...)`:
how many requests the server has actually received, and whether this
coroutine object has already been awaited (a coroutine is one-shot). -/
structure AwaitState where
  issued : Nat
  awaited : Bool
  deriving DecidableEq

/-- `await request`.  A fresh coroutine issues the next request and
receives the server's scripted response; an already-awaited coroutine
raises `RuntimeError`. -/
def awaitRequest (server : Nat → HttpResponse) (st : AwaitState) :
    Except PyError (HttpResponse × AwaitState) :=
  if st.awaited then .error .runtimeReuseAwaited
  else .ok (server st.issued, { issued := st.issued + 1, awaited := true })

/-- The `while resp.status_code == 429` loop of `make_request`
(discord.py lines 37-40), fueled.  The accumulator records the values of
the `X-Ratelimit-Reset-After` header passed to `asyncio.sleep`, in order.
Because the coroutine is one-shot, the loop body's second `await request`
always raises, so any fuel of at least one gives the code's behaviour. -/
def rateLimitLoop (server : Nat → HttpResponse) :
    Nat → HttpResponse → AwaitState → List String →
    Except PyError HttpResponse × List String
  | 0, _, _, sleeps => (.error .runtimeReuseAwaited, sleeps)
  | fuel + 1, resp, st, sleeps =>
    if resp.status == 429 then
      match resp.headers.lookup "X-Ratelimit-Reset-After" with
      | none => (.error (.keyError "X-Ratelimit-Reset-After"), sleeps)
      | some retry_after =>
        match awaitRequest server st with
        | .error e => (.error e, sleeps ++ [retry_after])
        | .ok (resp2, st2) => rateLimitLoop server fuel resp2 st2 (sleeps ++ [retry_after])
    else
      (raise_for_status resp, sleeps)

/-- `API_BASE_URL` (discord.py line 12). -/
def API_BASE_URL : String := "https://discord.com/api/v8/"

/-- The default authorization header dict `DISCORD_HEADERS`
(discord.py lines 13-15); the bot token is an opaque constant. -/
def DISCORD_HEADERS : List (String × String) :=
  [("Authorization", "Bot DISCORD_BOT_TOKEN")]

/-- Python dict item assignment `d[k] = v` on an association list:
overwrite in place if the key exists, else append. -/
def dictSet (d : List (String × String)) (k v : String) : List (String × String) :=
  if (d.lookup k).isSome then
    d.map (fun kv => if kv.1 == k then (k, v) else kv)
  else d ++ [(k, v)]

/-- Python `base.update(upd)` on association lists. -/
def dictUpdate (base upd : List (String × String)) : List (String × String) :=
  upd.foldl (fun d kv => dictSet d kv.1 kv.2) base

/-- `urllib.parse.urljoin` for the cases the code exercises: an absolute
target URL wins, a relative path is resolved against the base (whose path
ends in a slash). -/
def urljoin (base url : String) : String :=
  if occursInStr "://" url then url else base ++ url

/-- `make_request` (discord.py lines 18-43).  `server` scripts the
responses to successively issued requests; the result pairs the returned
response (or raised error) with the list of rate-limit sleeps performed.
The single coroutine is created once and awaited; on a 429 the code reads
the retry-after header, sleeps, and awaits the same coroutine again. -/
def make_request (server : Nat → HttpResponse) (method url : String)
    (json : Option String) (headers : List (String × String)) :
    Except PyError HttpResponse × List String :=
  let _url := urljoin API_BASE_URL url
  let _headers := dictUpdate DISCORD_HEADERS headers
  match awaitRequest server { issued := 0, awaited := false } with
  | .error e => (.error e, [])
  | .ok (resp, st) => rateLimitLoop server 1000000 resp st []

/-! ## Direct-message notification (`backend/discord.py`) -/

/-- `get_direct_message_channel` (discord.py lines 164-174): open a DM
channel; an `HTTPStatusError` with status 400 is treated as "no channel"
and swallowed, any other error propagates. -/
def get_direct_message_channel (server : Nat → HttpResponse) (user_id : String) :
    Except PyError (Option String) :=
  match (make_request server "POST" "users/@me/channels"
      (some ("recipient_id=" ++ user_id)) []).1 with
  | .ok resp => .ok resp.jsonId
  | .error (.httpStatusError s) =>
    if s == 400 then .ok none else .error (.httpStatusError s)
  | .error e => .error e

/-- `send_direct_message` (discord.py lines 177-192).  `openServer`
scripts the channel-open call, `postServer` the message post.  The result
is `some message` when a message was posted, `none` when the function
returned silently without posting. -/
def send_direct_message (openServer postServer : Nat → HttpResponse)
    (form : Form) (response : FormResponse) (user : ActingUser) :
    Except PyError (Option String) :=
  match get_direct_message_channel openServer user.payload.id with
  | .error e => .error e
  | .ok channel =>
    if !pyTruthy channel then .ok none
    else
      match form.dm_message with
      | none => .error (.attributeError "replace")
      | some dm =>
      let message := format_message (build_ctx_variables form response user) dm
      match (make_request postServer "POST"
          ("channels/" ++ pyStrOfOption channel ++ "/messages")
          (some message) []).1 with
      | .ok _ => .ok (some message)
      | .error (.httpStatusError s) =>
        if s == 403 then .ok none else .error (.httpStatusError s)
      | .error e => .error e

/-! ## Webhook notification (two implementations) -/

/-- `FRONTEND_URL` from `backend.constants` (outside the two source
files); its value is opaque to every claim. -/
def FRONTEND_URL : String := "https://forms.example"

/-- An embed author block (`name`, optional `icon_url`). -/
structure EmbedAuthor where
  name : String
  icon_url : Option String
  deriving DecidableEq

/-- The embed dict both webhook builders construct. -/
structure Embed where
  title : String
  description : String
  url : String
  timestamp : String
  color : Nat
  author : Option EmbedAuthor
  deriving DecidableEq

/-- The webhook payload dict (`embeds`, `allowed_mentions.parse`,
`username`, optional `content`). -/
structure Hook where
  embeds : List Embed
  allowed_mentions_parse : List String
  username : String
  content : Option String
  deriving DecidableEq

/-- The author block both builders attach when the acting user is
authenticated: display name, plus a CDN icon URL when the response's user
payload is truthy and carries a truthy avatar hash. -/
def embedAuthorOf (request_user : ActingUser) (user : Option UserPayload) :
    Option EmbedAuthor :=
  if request_user.is_authenticated then
    some { name := request_user.display_name,
           icon_url :=
             match user with
             | some u =>
               if pyTruthy u.avatar then
                 some ("https://cdn.discordapp.com/avatars/" ++ u.id ++ "/"
                       ++ u.avatar.getD "" ++ ".png")
               else none
             | none => none }
  else none

/-- `send_submission_webhook` in `backend/discord.py` (lines 103-148).
`server` scripts the `make_request` POST to the webhook URL.  The result
is the hook that was delivered, or the raised error.  Note the source
reads `ctx.get("mention")`, a key `build_ctx_variables` never defines. -/
def Discord.send_submission_webhook (server : Nat → HttpResponse)
    (form : Form) (response : FormResponse) (request_user : ActingUser) :
    Except PyError Hook :=
  match form.webhook with
  | none => .error (.valueError "Got empty webhook.")
  | some webhook =>
    let ctx := build_ctx_variables form response request_user
    let user := response.user
    let mention := ctx.lookup "mention"
    let embed : Embed :=
      { title := "New Form Response",
        description := pyStrOfOption mention ++ " submitted a response to `"
                       ++ form.name ++ "`.",
        url := FRONTEND_URL ++ "/path_to_view_form/" ++ response.id,
        timestamp := response.timestamp,
        color := 7506394,
        author := embedAuthorOf request_user user }
    let hook0 : Hook :=
      { embeds := [embed],
        allowed_mentions_parse := ["users", "roles"],
        username := if form.name.isEmpty then "Python Discord Forms" else form.name,
        content := none }
    let hook :=
      if pyTruthy webhook.message then
        { hook0 with content := some (format_message ctx (webhook.message.getD "")) }
      else hook0
    match (make_request server "POST" webhook.url (some "hook") []).1 with
    | .error e => .error e
    | .ok _ => .ok hook

/-- `SubmitForm.send_submission_webhook` in
`backend/routes/forms/submit.py` (lines 176-238).  `postServer` scripts
the raw `httpx` POST to the webhook URL (followed by
`raise_for_status`).  This duplicate computes the mention itself via the
`AttributeError` fallback and additionally substitutes the literal
`_USER_MENTION_` into a configured message template. -/
def SubmitForm.send_submission_webhook (postServer : Nat → HttpResponse)
    (form : Form) (response : FormResponse) (request_user : ActingUser) :
    Except PyError Hook :=
  match form.webhook with
  | none => .error (.valueError "Got empty webhook.")
  | some webhook =>
    let mention := request_user.discord_mention.getD "User"
    let user := response.user
    let embed : Embed :=
      { title := "New Form Response",
        description := mention ++ " submitted a response to `" ++ form.name ++ "`.",
        url := FRONTEND_URL ++ "/path_to_view_form/" ++ response.id,
        timestamp := response.timestamp,
        color := 7506394,
        author := embedAuthorOf request_user user }
    let hook0 : Hook :=
      { embeds := [embed],
        allowed_mentions_parse := ["users", "roles"],
        username := if form.name.isEmpty then "Python Discord Forms" else form.name,
        content := none }
    let hook :=
      if pyTruthy webhook.message then
        let ctx : List (String × String) :=
          [("user", mention),
           ("response_id", response.id),
           ("form", form.name),
           ("form_id", form.id),
           ("time", response.timestamp)]
        let message := format_message ctx (webhook.message.getD "")
        { hook0 with content := some (pyReplaceStr message "_USER_MENTION_" mention) }
      else hook0
    match raise_for_status (postServer 0) with
    | .error e => .error e
    | .ok _ => .ok hook

/-- Projection: the description of the first embed of a delivered hook. -/
def hookDescription : Except PyError Hook → Option String
  | .ok h =>
    match h.embeds with
    | e :: _ => some e.description
    | [] => none
  | .error _ => none

/-! ## SubmissionPipeline (`backend/routes/forms/submit.py`) -/

/-- The parsed request body `PartialSubmission`. -/
structure PartialSubmission where
  response : List (String × PyVal)
  captcha : Option String
  deriving DecidableEq

/-- The terminal outcomes of `SubmitForm.post`, i.e. the `JSONResponse`
bodies it can return. -/
inductive Outcome where
  /-- 200: the redacted form, the persisted response, and whether a
  webhook `BackgroundTask` was scheduled. -/
  | success (form : Form) (response : FormResponse) (webhookScheduled : Bool)
  /-- 404 `"Open form not found"`. -/
  | notFound
  /-- 400 with an error tag and an optional `fields` list. -/
  | badRequest (error : String) (fields : List String)
  /-- 422 with pydantic's per-field errors. -/
  | unprocessable (errors : List String)
  /-- 403 or 500 `"failed_tests"` with the reported test results. -/
  | failedTests (status : Nat) (test_results : List TestResult)
  deriving DecidableEq

/-- The HTTP status of each outcome. -/
def Outcome.status : Outcome → Nat
  | .success _ _ _ => 200
  | .notFound => 404
  | .badRequest _ _ => 400
  | .unprocessable _ => 422
  | .failedTests s _ => s

/-- The external collaborators of one submission, as §1 of the
specification scopes them out of the core.

* `md5hex` — modelled from the spec: the stable digest used for the
  anti-spam hashes (`hashlib.md5` + `binascii.hexlify` live outside the
  embedded control flow; §3 of the spec says any fixed deterministic
  digest is acceptable).
* `captchaResult` — the verdict of the hCaptcha POST for a given token:
  `.ok b` is a 2xx reply whose JSON `success` field is `b`; `.error`
  is the `HTTPStatusError` of `raise_for_status` on a failed call.
* `unittestResults` — the grading collaborator's reply for this
  submission (`execute_unittest`), or its raised transport error.
* `validation` — modelled from the spec: the pydantic
  `FormResponse(**response)` check (the model class is outside the two
  source files; §4.4 stage 6 says a structural violation yields the field
  errors of the 422 body, otherwise construction succeeds).
* `freshId` — `str(uuid.uuid4())`.
* `now` — the server-assigned timestamp. -/
structure Env where
  md5hex : String → String
  captchaResult : Option String → Except PyError Bool
  unittestResults : Except PyError (List TestResult)
  validation : Except (List String) Unit
  freshId : String
  now : String

/-- `db.forms.find_one({"_id": form_id, "features": "OPEN"})`: the first
stored form with this id whose `features` array contains `"OPEN"`. -/
def find_one (store : List Form) (form_id : String) : Option Form :=
  store.find? (fun f => f.id == form_id && f.features.contains "OPEN")

/-- The anti-spam stage (submit.py lines 72-97): skipped when the form
has the `DISABLE_ANTISPAM` feature, otherwise hash the client host and
user agent and call the CAPTCHA service; a CAPTCHA transport error
propagates. -/
def antispamStage (env : Env) (form : Form) (client_host user_agent : String)
    (captcha : Option String) : Except PyError (Option Antispam) :=
  if form.features.contains "DISABLE_ANTISPAM" then .ok none
  else
    match env.captchaResult captcha with
    | .error e => .error e
    | .ok success =>
      .ok (some { ip_hash := env.md5hex client_host,
                  user_agent_hash := env.md5hex user_agent,
                  captcha_pass := success })

/-- The auth-gating stage (submit.py lines 99-113): only for forms with
`REQUIRES_LOGIN`; unauthenticated users get `missing_discord_data`,
authenticated users have their payload attached unless `COLLECT_EMAIL`
is set and the payload lacks an email (`email_required`). -/
def authStage (form : Form) (ruser : ActingUser) :
    Except Outcome (Option UserPayload) :=
  if form.features.contains "REQUIRES_LOGIN" then
    if ruser.is_authenticated then
      if form.features.contains "COLLECT_EMAIL" && !ruser.payload.hasEmail then
        .error (.badRequest "email_required" [])
      else .ok (some ruser.payload)
    else .error (.badRequest "missing_discord_data" [])
  else .ok none

/-- The field-completeness loop (submit.py lines 115-121): walk the
form's questions in order; an absent non-required answer is filled with
`None`, an absent required question's id is collected.  Returns the
updated answers and the missing-list. -/
def fillAnswers : List Question → List (String × PyVal) →
    List (String × PyVal) × List String
  | [], answers => (answers, [])
  | q :: qs, answers =>
    if (answers.lookup q.id).isSome then fillAnswers qs answers
    else if !q.required then fillAnswers qs (answers ++ [(q.id, none)])
    else
      let rest := fillAnswers qs answers
      (rest.1, q.id :: rest.2)

/-- The conditional grading stage (submit.py lines 134-151): run only
when some question's data has a `unittests` key; `.ok none` means
proceed, `.ok (some out)` is the terminal failure response, `.error` a
propagated transport error.  A failure reports only the failing results,
with status 500 when any result carries return code 99, else 403. -/
def gradeStage (env : Env) (form : Form) : Except PyError (Option Outcome) :=
  if form.questions.any (fun q => q.data.contains "unittests") then
    match env.unittestResults with
    | .error e => .error e
    | .ok results =>
      if results.all (fun t => t.passed) then .ok none
      else
        .ok (some (.failedTests
          (if results.any (fun t => t.return_code == 99) then 500 else 403)
          (results.filter (fun t => !t.passed))))
  else .ok none

/-- `SubmitForm.post` (submit.py lines 58-174).  The result pairs the
returned outcome (or the propagated exception) with the list of
documents passed to `insert_one`, in order. -/
def SubmitForm.post (env : Env) (store : List Form) (form_id : String)
    (body : PartialSubmission) (client_host user_agent : String)
    (ruser : ActingUser) : Except PyError Outcome × List FormResponse :=
  match find_one store form_id with
  | none => (.ok .notFound, [])
  | some form =>
    match antispamStage env form client_host user_agent body.captcha with
    | .error e => (.error e, [])
    | .ok antispam =>
      match authStage form ruser with
      | .error out => (.ok out, [])
      | .ok userField =>
        let filled := fillAnswers form.questions body.response
        if filled.2.isEmpty then
          match env.validation with
          | .error errs => (.ok (.unprocessable errs), [])
          | .ok _ =>
            let response_obj : FormResponse :=
              { id := env.freshId, form_id := form.id, response := filled.1,
                user := userField, antispam := antispam, timestamp := env.now }
            match gradeStage env form with
            | .error e => (.error e, [])
            | .ok (some out) => (.ok out, [])
            | .ok none =>
              (.ok (.success form response_obj
                      (form.features.contains "WEBHOOK_ENABLED")),
               [response_obj])
        else (.ok (.badRequest "missing_fields" filled.2), [])

deriving instance DecidableEq for Except

/-- Modelled from the spec: "the reported `fields` list contains exactly
the ids of the missing required questions, in form-question order" — the
ids of the required questions absent from the submitted answers, in
question order.  Compared against the missing-list `fillAnswers`
computes. -/
def missingRequiredIds (questions : List Question)
    (answers : List (String × PyVal)) : List String :=
  (questions.filter (fun q => q.required && (answers.lookup q.id).isNone)).map
    (fun q => q.id)

/-! ## Concrete fixtures used by witnesses and counterexamples -/

/-- A server that answers the first request with 429 and retry-after 0.2,
and any reissued request with 200 — the scripted scenario of the spec's
rate-limit property. -/
def rateLimitServer : Nat → HttpResponse := fun n =>
  if n = 0 then
    { status := 429, headers := [("X-Ratelimit-Reset-After", "0.2")], jsonId := none }
  else { status := 200, headers := [], jsonId := none }

/-- A server that always answers 200 with an empty body. -/
def okServer : Nat → HttpResponse := fun _ =>
  { status := 200, headers := [], jsonId := none }

/-- A server that always answers 400. -/
def badRequestServer : Nat → HttpResponse := fun _ =>
  { status := 400, headers := [], jsonId := none }

/-- A server that always answers 403. -/
def forbiddenServer : Nat → HttpResponse := fun _ =>
  { status := 403, headers := [], jsonId := none }

/-- A server that always answers 404. -/
def notFoundServer : Nat → HttpResponse := fun _ =>
  { status := 404, headers := [], jsonId := none }

/-- A server that opens a DM channel with id `"c1"`. -/
def channelServer : Nat → HttpResponse := fun _ =>
  { status := 200, headers := [], jsonId := some "c1" }

/-- An authenticated acting user with a mention handle. -/
def userAda : ActingUser :=
  { is_authenticated := true, discord_mention := some "@Ada",
    display_name := "Ada", payload := { id := "1", avatar := none, hasEmail := true } }

/-- An anonymous acting user. -/
def anonUser : ActingUser :=
  { is_authenticated := false, discord_mention := none, display_name := "",
    payload := { id := "0", avatar := none, hasEmail := false } }

/-- A questionless open form named `Survey` with a webhook configured. -/
def formSurvey : Form :=
  { id := "f1", name := "Survey", features := ["OPEN"], questions := [],
    webhook := some { url := "https://hook.example/w", message := none },
    discord_role := none, dm_message := some "thanks \x7buser\x7d" }

/-- An already-built response used when exercising the notifiers. -/
def respX : FormResponse :=
  { id := "r1", form_id := "f1", response := [], user := none, antispam := none,
    timestamp := "t0" }

/-- A benign environment: CAPTCHA passes, no grading, validation passes. -/
def env0 : Env :=
  { md5hex := fun s => s ++ "#md5", captchaResult := fun _ => .ok true,
    unittestResults := .ok [], validation := .ok (), freshId := "r1", now := "t0" }

/-- A minimal submission body. -/
def body0 : PartialSubmission := { response := [], captcha := some "tok" }

/-- An open, webhook-enabled form whose webhook configuration is null. -/
def formW : Form :=
  { id := "f1", name := "Survey", features := ["OPEN", "WEBHOOK_ENABLED"],
    questions := [], webhook := none, discord_role := none, dm_message := none }

/-- The same form with a webhook actually configured. -/
def formW2 : Form :=
  { formW with webhook := some { url := "https://hook.example/w", message := none } }

/-- The response the pipeline persists for `formW`/`formW2` under `env0`. -/
def respW : FormResponse :=
  { id := "r1", form_id := "f1", response := [], user := none,
    antispam := some { ip_hash := "ip#md5", user_agent_hash := "ua#md5",
                       captcha_pass := true },
    timestamp := "t0" }

/-- A graded question (its data has a `unittests` key). -/
def qGraded : Question := { id := "q1", required := true, data := ["unittests"] }

/-- An open form with one graded question. -/
def formG : Form :=
  { id := "f2", name := "Quiz", features := ["OPEN"], questions := [qGraded],
    webhook := none, discord_role := none, dm_message := none }

/-- A passing and a failing test result; the failing one carries the
reserved infrastructure return code 99. -/
def tPass : TestResult := { passed := true, return_code := 0, result := "ok" }

/-- See `tPass`. -/
def tFail99 : TestResult := { passed := false, return_code := 99, result := "boom" }

/-- `env0` with a grading reply containing one failure with code 99. -/
def envG : Env := { env0 with unittestResults := .ok [tPass, tFail99] }

/-- A body answering the graded question. -/
def bodyG : PartialSubmission := { response := [("q1", some "x")], captcha := some "t" }

/-- A required and an optional question. -/
def qReq : Question := { id := "q1", required := true, data := [] }

/-- See `qReq`. -/
def qOpt : Question := { id := "q2", required := false, data := [] }

/-- An open form with an optional then a required question. -/
def formM : Form :=
  { id := "f3", name := "Poll", features := ["OPEN"], questions := [qOpt, qReq],
    webhook := none, discord_role := none, dm_message := none }

/-- A closed (not `OPEN`) form. -/
def formClosed : Form :=
  { id := "f1", name := "Closed", features := ["REQUIRES_LOGIN"], questions := [],
    webhook := none, discord_role := none, dm_message := none }

/-- An empty-answers submission body. -/
def bodyM : PartialSubmission := { response := [], captcha := some "t" }

/-! ### Lemmas about `pyReplaceStr` -/

theorem listStartsWith_false_of_occursIn_false {pat : List Char} {c : Char}
    {rest : List Char} (h : occursIn pat (c :: rest) = false) :
    listStartsWith pat (c :: rest) = false := by
  unfold occursIn at h
  exact (Bool.or_eq_false_iff.mp h).1

theorem occursIn_tail_false {pat : List Char} {c : Char} {rest : List Char}
    (h : occursIn pat (c :: rest) = false) : occursIn pat rest = false := by
  unfold occursIn at h
  exact (Bool.or_eq_false_iff.mp h).2

/-- If the pattern never occurs, the fueled replace is the identity. -/
theorem replaceFuel_of_occursIn_false (pat rep : List Char) :
    ∀ t : List Char, occursIn pat t = false → replaceFuel pat rep t.length t = t := by
  intro t
  induction t with
  | nil => intro _; rfl
  | cons c rest ih =>
    intro h
    have hs := listStartsWith_false_of_occursIn_false h
    have ht := occursIn_tail_false h
    simp only [List.length_cons, replaceFuel, hs, Bool.false_eq_true, if_false, ih ht]

/-- If the pattern never occurs, Python `replace` is the identity. -/
theorem pyReplaceStr_of_occursInStr_false (s pat rep : String)
    (h : occursInStr pat s = false) : pyReplaceStr s pat rep = s := by
  have hne : pat.data.isEmpty = false := by
    cases hd : pat.data with
    | nil =>
      exfalso
      unfold occursInStr at h
      rw [hd] at h
      cases ht : s.data with
      | nil => rw [ht] at h; simp [occursIn, List.isEmpty] at h
      | cons c cs =>
        rw [ht] at h
        unfold occursIn at h
        simp [listStartsWith] at h
    | cons p ps => rfl
  unfold pyReplaceStr pyReplace
  rw [hne]
  simp only [Bool.false_eq_true, if_false]
  rw [replaceFuel_of_occursIn_false pat.data rep.data s.data h]

theorem format_message_of_noPlaceholder (ctx : List (String × String)) :
    ∀ t : String, noPlaceholder ctx t = true → format_message ctx t = t := by
  induction ctx with
  | nil => intro t _; rfl
  | cons kv rest ih =>
    intro t h
    rw [noPlaceholder, List.all_cons, Bool.and_eq_true] at h
    obtain ⟨h1, h2⟩ := h
    have hocc : occursInStr ("\x7b" ++ kv.1 ++ "\x7d") t = false := by
      cases hv : occursInStr ("\x7b" ++ kv.1 ++ "\x7d") t
      · rfl
      · rw [hv] at h1; simp at h1
    unfold format_message
    rw [List.foldl_cons, pyReplaceStr_of_occursInStr_false t _ kv.2 hocc]
    exact ih t h2


/-! ## Helper lemmas -/

theorem lookup_append_left {α β : Type} [BEq α] {l1 l2 : List (α × β)} {k : α}
    (h : (l1.lookup k).isSome) : (l1 ++ l2).lookup k = l1.lookup k := by
  induction l1 with
  | nil => simp [List.lookup] at h
  | cons kv rest ih =>
    obtain ⟨k1, v1⟩ := kv
    rw [List.cons_append, List.lookup, List.lookup]
    rw [List.lookup] at h
    cases hk : k == k1 with
    | true => rfl
    | false => rw [hk] at h; exact ih h

theorem lookup_append_right {α β : Type} [BEq α] {l1 l2 : List (α × β)} {k : α}
    (h : l1.lookup k = none) : (l1 ++ l2).lookup k = l2.lookup k := by
  induction l1 with
  | nil => rfl
  | cons kv rest ih =>
    obtain ⟨k1, v1⟩ := kv
    rw [List.cons_append, List.lookup]
    rw [List.lookup] at h
    cases hk : k == k1 with
    | true => rw [hk] at h; exact absurd h (by simp)
    | false => rw [hk] at h; exact ih h

theorem lookup_singleton_ne {β : Type} {k k' : String} {v : β} (h : k' ≠ k) :
    ([(k, v)] : List (String × β)).lookup k' = none := by
  rw [List.lookup]
  have hb : (k' == k) = false := by simpa using h
  rw [hb]
  rfl

/-- `fillAnswers` never disturbs a key that is already answered. -/
theorem fillAnswers_preserves (qs : List Question) :
    ∀ (ans : List (String × PyVal)) (k : String), (ans.lookup k).isSome →
      ((fillAnswers qs ans).1).lookup k = ans.lookup k := by
  induction qs with
  | nil => intro ans k _; rfl
  | cons q rest ih =>
    intro ans k hk
    rw [fillAnswers]
    cases hq : (ans.lookup q.id).isSome with
    | true => simpa [hq] using ih ans k hk
    | false =>
      cases hr : q.required with
      | false =>
        simp only [hq, Bool.false_eq_true, if_false, hr, Bool.not_false, if_true]
        have hpres : ((ans ++ [(q.id, (none : PyVal))]).lookup k).isSome := by
          rw [lookup_append_left hk]; exact hk
        rw [ih _ k hpres, lookup_append_left hk]
      | true =>
        simp only [hq, Bool.false_eq_true, if_false, hr, Bool.not_true, if_false]
        exact ih ans k hk

theorem lookup_append_single_ne {k k' : String} {v : PyVal}
    (ans : List (String × PyVal)) (h : k' ≠ k) :
    (ans ++ [(k, v)]).lookup k' = ans.lookup k' := by
  cases hs : ans.lookup k' with
  | some v1 =>
    rw [lookup_append_left (k := k') (by rw [hs]; rfl), hs]
  | none =>
    rw [lookup_append_right hs, lookup_singleton_ne h]

/-- The missing-required-ids formula only depends on the answers through
the lookups of the listed questions. -/
theorem missingRequiredIds_congr (qs : List Question) :
    ∀ ans ans' : List (String × PyVal),
      (∀ q ∈ qs, ans'.lookup q.id = ans.lookup q.id) →
      missingRequiredIds qs ans' = missingRequiredIds qs ans := by
  induction qs with
  | nil => intro ans ans' _; rfl
  | cons q rest ih =>
    intro ans ans' h
    have hq : ans'.lookup q.id = ans.lookup q.id := h q (by simp)
    have htail : missingRequiredIds rest ans' = missingRequiredIds rest ans :=
      ih ans ans' (fun p hp => h p (List.mem_cons_of_mem q hp))
    simp only [missingRequiredIds, List.filter_cons, hq] at htail ⊢
    cases hp : (q.required && (ans.lookup q.id).isNone) with
    | true => simpa using htail
    | false => simpa using htail

/-- The missing-list computed by the field-completeness loop is exactly
the ids of the required questions absent from the submitted answers, in
question order (for forms with distinct question ids). -/
theorem fillAnswers_missing_eq (qs : List Question) :
    ∀ ans : List (String × PyVal), (qs.map Question.id).Nodup →
      (fillAnswers qs ans).2 = missingRequiredIds qs ans := by
  induction qs with
  | nil => intro ans _; rfl
  | cons q rest ih =>
    intro ans hnd
    rw [List.map_cons, List.nodup_cons] at hnd
    obtain ⟨hqnotin, hndrest⟩ := hnd
    rw [fillAnswers]
    cases hq : (ans.lookup q.id).isSome with
    | true =>
      have hnone : (ans.lookup q.id).isNone = false := by
        cases hl : ans.lookup q.id with
        | none => rw [hl] at hq; simp at hq
        | some v => rfl
      simp [ih ans hndrest, missingRequiredIds, List.filter_cons, hnone]
    | false =>
      have hnone : (ans.lookup q.id).isNone = true := by
        cases hl : ans.lookup q.id with
        | none => rfl
        | some v => rw [hl] at hq; simp at hq
      cases hr : q.required with
      | false =>
        have hcong : missingRequiredIds rest (ans ++ [(q.id, (none : PyVal))])
            = missingRequiredIds rest ans := by
          apply missingRequiredIds_congr
          intro p hp
          apply lookup_append_single_ne
          intro hc
          exact hqnotin (hc ▸ List.mem_map_of_mem Question.id hp)
        simp only [missingRequiredIds] at hcong
        simp [hr, ih (ans ++ [(q.id, (none : PyVal))]) hndrest, hcong,
          missingRequiredIds, List.filter_cons]
      | true =>
        simp [hr, hnone, ih ans hndrest, missingRequiredIds, List.filter_cons]

/-- The auth-gating stage only fails with an empty-fields `badRequest`. -/
theorem authStage_error_shape (form : Form) (ruser : ActingUser) (out : Outcome)
    (h : authStage form ruser = .error out) : ∃ s, out = .badRequest s [] := by
  unfold authStage at h
  split at h
  · split at h
    · split at h
      · exact ⟨"email_required", by injection h with h2; exact h2.symm⟩
      · simp at h
    · exact ⟨"missing_discord_data", by injection h with h2; exact h2.symm⟩
  · simp at h

/-- The grading stage only terminates the pipeline with a `failedTests`
outcome. -/
theorem gradeStage_some_shape (env : Env) (form : Form) (out : Outcome)
    (h : gradeStage env form = .ok (some out)) :
    ∃ s ts, out = .failedTests s ts := by
  unfold gradeStage at h
  by_cases hu : (form.questions.any fun q => q.data.contains "unittests") = true
  · rw [if_pos hu] at h
    cases hut : env.unittestResults with
    | error e => rw [hut] at h; simp at h
    | ok results =>
      rw [hut] at h
      dsimp only at h
      by_cases hall : (results.all fun t => t.passed) = true
      · rw [if_pos hall] at h; simp at h
      · rw [if_neg hall] at h
        injection h with h2
        injection h2 with h3
        exact ⟨_, _, h3.symm⟩
  · rw [if_neg hu] at h; simp at h

/-- The anti-spam stage succeeds with a present block exactly when the
form does not carry the `DISABLE_ANTISPAM` feature. -/
theorem antispamStage_isSome (env : Env) (form : Form) (ch ua : String)
    (captcha : Option String) (a : Option Antispam)
    (h : antispamStage env form ch ua captcha = .ok a) :
    a.isSome = !(form.features.contains "DISABLE_ANTISPAM") := by
  unfold antispamStage at h
  by_cases hd : form.features.contains "DISABLE_ANTISPAM" = true
  · rw [if_pos hd] at h
    injection h with h2
    subst h2
    simpa using hd
  · rw [if_neg hd] at h
    cases hc : env.captchaResult captcha with
    | error e => rw [hc] at h; simp at h
    | ok b =>
      rw [hc] at h
      dsimp only at h
      injection h with h2
      subst h2
      simpa using hd

/-- Entering the retry loop with an already-awaited coroutine: the loop
sleeps on the advertised retry-after and then crashes re-awaiting, or
exits normally on a non-429 status. -/
theorem rateLimitLoop_awaited (server : Nat → HttpResponse) (fuel : Nat)
    (resp : HttpResponse) (st : AwaitState) (sleeps : List String)
    (h : st.awaited = true) :
    rateLimitLoop server (fuel + 1) resp st sleeps =
      if resp.status == 429 then
        match resp.headers.lookup "X-Ratelimit-Reset-After" with
        | none => (.error (.keyError "X-Ratelimit-Reset-After"), sleeps)
        | some ra => (.error .runtimeReuseAwaited, sleeps ++ [ra])
      else (raise_for_status resp, sleeps) := by
  by_cases h429 : (resp.status == 429) = true
  · cases hh : resp.headers.lookup "X-Ratelimit-Reset-After" with
    | none => simp [rateLimitLoop, awaitRequest, h, h429, hh]
    | some ra => simp [rateLimitLoop, awaitRequest, h, h429, hh]
  · simp [rateLimitLoop, awaitRequest, h, h429]

/-- What one `make_request` call does, as a function of the server's
response to the single request that is ever issued: a 429 leads to a
sleep and then the coroutine-reuse crash (or a `KeyError` when the
retry-after header is absent); otherwise `raise_for_status` decides. -/
theorem make_request_eq (server : Nat → HttpResponse) (method url : String)
    (json : Option String) (headers : List (String × String)) :
    make_request server method url json headers =
      (if (server 0).status == 429 then
        match (server 0).headers.lookup "X-Ratelimit-Reset-After" with
        | none => (.error (.keyError "X-Ratelimit-Reset-After"), [])
        | some ra => (.error .runtimeReuseAwaited, [ra])
      else (raise_for_status (server 0), [])) := by
  unfold make_request
  have h1 : awaitRequest server { issued := 0, awaited := false } =
      .ok (server 0, { issued := 1, awaited := true }) := rfl
  rw [h1]
  rw [show (1000000 : Nat) = 999999 + 1 from rfl]
  exact rateLimitLoop_awaited server 999999 (server 0)
    { issued := 1, awaited := true } [] rfl

/-- `get_direct_message_channel` as a function of the scripted response:
429 crashes propagate, a 400 is swallowed into "no channel", any other
4xx/5xx propagates as `HTTPStatusError`, and a success returns the
channel id from the body. -/
theorem get_direct_message_channel_eq (server : Nat → HttpResponse)
    (uid : String) :
    get_direct_message_channel server uid =
      (if (server 0).status == 429 then
        match (server 0).headers.lookup "X-Ratelimit-Reset-After" with
        | none => .error (.keyError "X-Ratelimit-Reset-After")
        | some _ => .error .runtimeReuseAwaited
      else if 400 ≤ (server 0).status then
        if (server 0).status == 400 then .ok none
        else .error (.httpStatusError (server 0).status)
      else .ok (server 0).jsonId) := by
  unfold get_direct_message_channel
  rw [make_request_eq]
  by_cases h429 : ((server 0).status == 429) = true
  · cases hh : (server 0).headers.lookup "X-Ratelimit-Reset-After" with
    | none => simp [h429, hh]
    | some ra => simp [h429, hh]
  · by_cases h400 : 400 ≤ (server 0).status
    · by_cases heq : ((server 0).status == 400) = true
      · simp [h429, h400, heq, raise_for_status]
      · simp [h429, h400, heq, raise_for_status]
    · simp [h429, h400, raise_for_status]

/-! ## Claim theorems -/

/-- **C1** (refuting evidence).  The claim says a call whose first
response is 429 sleeps for the advertised retry-after and reissues the
identical request until a non-429 status arrives, returning that
response — for this scripted server, the 200 of the second request.  In
the code the retry loop re-awaits the coroutine consumed by the first
attempt, so after sleeping once the call raises
`RuntimeError: cannot reuse already awaited coroutine` and never returns
the 200 the server would give a reissued request. -/
theorem make_request_429_crashes_instead_of_retrying :
    (rateLimitServer 0).status = 429
    ∧ (rateLimitServer 0).headers.lookup "X-Ratelimit-Reset-After" = some "0.2"
    ∧ (rateLimitServer 1).status = 200
    ∧ make_request rateLimitServer "POST" "channels/1/messages" (some "payload") []
        = (.error .runtimeReuseAwaited, ["0.2"]) := by
  refine ⟨rfl, rfl, rfl, ?_⟩
  rw [make_request_eq]
  rfl

/-- **C2** (refuting evidence).  The claim says both implementations of
`send_submission_webhook` interpolate the acting user's mention (or the
fallback `"User"`) into the embed description.  The `submit.py`
implementation does; the `discord.py` implementation reads the key
`"mention"` from a context that only defines `"user"`, so its
description always starts with the f-string rendering of `None`. -/
theorem send_submission_webhook_description_divergence :
    hookDescription (Discord.send_submission_webhook okServer formSurvey respX userAda)
      = some "None submitted a response to `Survey`."
    ∧ hookDescription
        (SubmitForm.send_submission_webhook okServer formSurvey respX userAda)
      = some "@Ada submitted a response to `Survey`."
    ∧ ("None submitted a response to `Survey`." : String)
      ≠ "@Ada submitted a response to `Survey`." := by
  refine ⟨rfl, rfl, by decide⟩

/-- **C9**.  `format_message` is a pure function of the context; a
template containing no `\x7bkey\x7d` placeholder of the context is
returned unchanged, and the spec's example formats as stated. -/
theorem format_message_spec (ctx : List (String × String)) :
    (∀ t : String, noPlaceholder ctx t = true → format_message ctx t = t)
    ∧ format_message [("user", "Ada"), ("form", "Survey")]
        "\x7buser\x7d submitted \x7bform\x7d" = "Ada submitted Survey" :=
  ⟨format_message_of_noPlaceholder ctx, by decide⟩

/-- Witness for `format_message_spec` at a concrete placeholder-free
template. -/
theorem format_message_spec_witness :
    noPlaceholder [("user", "Ada"), ("form", "Survey")] "no placeholders here" = true
    ∧ format_message [("user", "Ada"), ("form", "Survey")] "no placeholders here"
      = "no placeholders here" :=
  ⟨by decide,
   (format_message_spec [("user", "Ada"), ("form", "Survey")]).1
     "no placeholders here" (by decide)⟩

/-- **C5**.  The direct-message notifier: a channel-open failing with
status 400 ("bad request") is a silent no-op with no message posted; a
channel obtained and a post failing with status 403 ("forbidden") is
swallowed; every other failing status of either call propagates as an
error (for a 429 the propagated error is the retry loop's coroutine
crash rather than an `HTTPStatusError`, but it is still an error). -/
theorem send_direct_message_error_policy (form : Form) (resp : FormResponse)
    (user : ActingUser) (dm : String) (hdm : form.dm_message = some dm) :
    (∀ openS postS : Nat → HttpResponse, (openS 0).status = 400 →
       send_direct_message openS postS form resp user = .ok none)
    ∧ (∀ openS postS : Nat → HttpResponse, (openS 0).status < 400 →
         pyTruthy (openS 0).jsonId = true → (postS 0).status = 403 →
         send_direct_message openS postS form resp user = .ok none)
    ∧ (∀ openS postS : Nat → HttpResponse, 400 < (openS 0).status →
         ∃ e, send_direct_message openS postS form resp user = .error e)
    ∧ (∀ openS postS : Nat → HttpResponse, (openS 0).status < 400 →
         pyTruthy (openS 0).jsonId = true → 400 ≤ (postS 0).status →
         (postS 0).status ≠ 403 →
         ∃ e, send_direct_message openS postS form resp user = .error e) := by
  refine ⟨?_, ?_, ?_, ?_⟩
  · intro openS postS h400
    unfold send_direct_message
    rw [get_direct_message_channel_eq, h400]
    rfl
  · intro openS postS hlt htr h403
    unfold send_direct_message
    rw [get_direct_message_channel_eq,
      if_neg (show ¬ ((openS 0).status == 429) = true by simp only [beq_iff_eq]; omega),
      if_neg (show ¬ 400 ≤ (openS 0).status by omega)]
    dsimp only
    rw [if_neg (show ¬ (!pyTruthy (openS 0).jsonId) = true by rw [htr]; simp),
      hdm]
    dsimp only
    rw [make_request_eq,
      if_neg (show ¬ ((postS 0).status == 429) = true by simp only [beq_iff_eq]; omega)]
    dsimp only
    unfold raise_for_status
    rw [if_pos (show 400 ≤ (postS 0).status by omega)]
    dsimp only
    rw [if_pos (show ((postS 0).status == 403) = true by simp only [beq_iff_eq]; omega)]
  · intro openS postS hgt
    unfold send_direct_message
    rw [get_direct_message_channel_eq]
    by_cases h429 : ((openS 0).status == 429) = true
    · cases hh : (openS 0).headers.lookup "X-Ratelimit-Reset-After" with
      | none => rw [if_pos h429]; exact ⟨_, rfl⟩
      | some ra => rw [if_pos h429]; exact ⟨_, rfl⟩
    · rw [if_neg h429, if_pos (show 400 ≤ (openS 0).status by omega),
        if_neg (show ¬ ((openS 0).status == 400) = true by simp only [beq_iff_eq]; omega)]
      exact ⟨_, rfl⟩
  · intro openS postS hlt htr hge hne
    unfold send_direct_message
    rw [get_direct_message_channel_eq,
      if_neg (show ¬ ((openS 0).status == 429) = true by simp only [beq_iff_eq]; omega),
      if_neg (show ¬ 400 ≤ (openS 0).status by omega)]
    dsimp only
    rw [if_neg (show ¬ (!pyTruthy (openS 0).jsonId) = true by rw [htr]; simp),
      hdm]
    dsimp only
    rw [make_request_eq]
    by_cases hp429 : ((postS 0).status == 429) = true
    · cases hh : (postS 0).headers.lookup "X-Ratelimit-Reset-After" with
      | none => rw [if_pos hp429]; exact ⟨_, rfl⟩
      | some ra => rw [if_pos hp429]; exact ⟨_, rfl⟩
    · rw [if_neg hp429]
      dsimp only
      unfold raise_for_status
      rw [if_pos hge]
      dsimp only
      rw [if_neg (show ¬ ((postS 0).status == 403) = true by
        simp only [beq_iff_eq]; exact hne)]
      exact ⟨_, rfl⟩

/-- Witness for `send_direct_message_error_policy`: the four branches at
concrete scripted servers. -/
theorem send_direct_message_error_policy_witness :
    send_direct_message badRequestServer okServer formSurvey respX userAda = .ok none
    ∧ send_direct_message channelServer forbiddenServer formSurvey respX userAda
        = .ok none
    ∧ (∃ e, send_direct_message forbiddenServer okServer formSurvey respX userAda
        = .error e)
    ∧ (∃ e, send_direct_message channelServer notFoundServer formSurvey respX userAda
        = .error e) := by
  obtain ⟨h1, h2, h3, h4⟩ :=
    send_direct_message_error_policy formSurvey respX userAda "thanks \x7buser\x7d" rfl
  exact ⟨h1 badRequestServer okServer rfl,
         h2 channelServer forbiddenServer (by decide) rfl rfl,
         h3 forbiddenServer okServer (by decide),
         h4 channelServer notFoundServer (by decide) rfl (by decide) (by decide)⟩

/-- **C8**.  When no stored form both carries this id and has the `OPEN`
feature, the pipeline returns the terminal 404 outcome for every body,
environment and user, inserting nothing — so no later stage can have
run. -/
theorem post_not_found_of_no_open_form (env : Env) (store : List Form)
    (fid : String) (body : PartialSubmission) (ch ua : String) (ruser : ActingUser)
    (h : ∀ f ∈ store, f.id = fid → f.features.contains "OPEN" = false) :
    SubmitForm.post env store fid body ch ua ruser = (.ok .notFound, []) := by
  have hf : find_one store fid = none := by
    unfold find_one
    rw [List.find?_eq_none]
    intro f hmem hp
    rw [Bool.and_eq_true] at hp
    obtain ⟨hid, hopen⟩ := hp
    rw [h f hmem (by simpa using hid)] at hopen
    simp at hopen
  unfold SubmitForm.post
  rw [hf]

/-- Witness for `post_not_found_of_no_open_form`: a store holding only a
form without the `OPEN` feature. -/
theorem post_not_found_of_no_open_form_witness :
    (∀ f ∈ [formClosed], f.id = "f1" → f.features.contains "OPEN" = false)
    ∧ SubmitForm.post env0 [formClosed] "f1" body0 "ip" "ua" anonUser
        = (.ok .notFound, []) :=
  ⟨by decide,
   post_not_found_of_no_open_form env0 [formClosed] "f1" body0 "ip" "ua" anonUser
     (by decide)⟩

/-- Inversion of a successful pipeline run: the form is the stored open
form, the response's anti-spam block is exactly what the anti-spam stage
produced, and the webhook is scheduled exactly on the
`WEBHOOK_ENABLED` feature flag. -/
theorem post_success_inv (env : Env) (store : List Form) (fid : String)
    (body : PartialSubmission) (ch ua : String) (ruser : ActingUser)
    (f : Form) (r : FormResponse) (w : Bool)
    (h : (SubmitForm.post env store fid body ch ua ruser).1 = .ok (.success f r w)) :
    find_one store fid = some f
    ∧ antispamStage env f ch ua body.captcha = .ok r.antispam
    ∧ w = f.features.contains "WEBHOOK_ENABLED" := by
  unfold SubmitForm.post at h
  cases hf : find_one store fid with
  | none => rw [hf] at h; simp at h
  | some form =>
    rw [hf] at h
    dsimp only at h
    cases ha : antispamStage env form ch ua body.captcha with
    | error e => rw [ha] at h; simp at h
    | ok a =>
      rw [ha] at h
      dsimp only at h
      cases hu : authStage form ruser with
      | error out =>
        rw [hu] at h
        dsimp only at h
        obtain ⟨s, hs⟩ := authStage_error_shape form ruser out hu
        subst hs
        simp at h
      | ok u =>
        rw [hu] at h
        dsimp only at h
        by_cases hempt : ((fillAnswers form.questions body.response).2).isEmpty = true
        · rw [if_pos hempt] at h
          cases hv : env.validation with
          | error errs => rw [hv] at h; simp at h
          | ok uu =>
            rw [hv] at h
            dsimp only at h
            cases hg : gradeStage env form with
            | error e => rw [hg] at h; simp at h
            | ok oo =>
              rw [hg] at h
              cases oo with
              | some out =>
                dsimp only at h
                obtain ⟨s, ts, hsts⟩ := gradeStage_some_shape env form out hg
                subst hsts
                simp at h
              | none =>
                dsimp only at h
                injection h with h2
                injection h2 with hf2 hr2 hw2
                subst hf2
                subst hr2
                subst hw2
                exact ⟨rfl, ha, rfl⟩
        · rw [if_neg hempt] at h
          simp at h

/-- **C6**.  A response that reaches persistence carries an anti-spam
block if and only if its form does not carry the `DISABLE_ANTISPAM`
feature; the submitted body plays no role. -/
theorem post_antispam_presence_iff (env : Env) (store : List Form) (fid : String)
    (body : PartialSubmission) (ch ua : String) (ruser : ActingUser)
    (f : Form) (r : FormResponse) (w : Bool)
    (h : (SubmitForm.post env store fid body ch ua ruser).1 = .ok (.success f r w)) :
    r.antispam.isSome = true ↔ f.features.contains "DISABLE_ANTISPAM" = false := by
  obtain ⟨_, ha, _⟩ :=
    post_success_inv env store fid body ch ua ruser f r w h
  have hiff := antispamStage_isSome env f ch ua body.captcha r.antispam ha
  cases hd : f.features.contains "DISABLE_ANTISPAM" with
  | true => rw [hd] at hiff; simp [hiff]
  | false => rw [hd] at hiff; simp [hiff]

/-- Witness for `post_antispam_presence_iff`: a concrete successful
anti-spam-enabled run. -/
theorem post_antispam_presence_iff_witness :
    (SubmitForm.post env0 [formW2] "f1" body0 "ip" "ua" anonUser).1
      = .ok (.success formW2 respW true)
    ∧ (respW.antispam.isSome = true
        ↔ formW2.features.contains "DISABLE_ANTISPAM" = false) :=
  ⟨rfl,
   post_antispam_presence_iff env0 [formW2] "f1" body0 "ip" "ua" anonUser
     formW2 respW true rfl⟩

/-- **C10**.  The store is written if and only if the pipeline ends in
the 200 success outcome: the list of documents passed to `insert_one` is
exactly the persisted response of a success, and empty on every other
outcome or propagated exception. -/
theorem post_insert_iff_success (env : Env) (store : List Form) (fid : String)
    (body : PartialSubmission) (ch ua : String) (ruser : ActingUser) :
    (SubmitForm.post env store fid body ch ua ruser).2 =
      (match (SubmitForm.post env store fid body ch ua ruser).1 with
       | .ok (.success _ r _) => [r]
       | _ => []) := by
  unfold SubmitForm.post
  cases hf : find_one store fid with
  | none => rfl
  | some form =>
    dsimp only
    cases ha : antispamStage env form ch ua body.captcha with
    | error e => rfl
    | ok a =>
      dsimp only
      cases hu : authStage form ruser with
      | error out =>
        obtain ⟨s, hs⟩ := authStage_error_shape form ruser out hu
        subst hs
        rfl
      | ok u =>
        dsimp only
        by_cases hempt : ((fillAnswers form.questions body.response).2).isEmpty = true
        · rw [if_pos hempt]
          cases hv : env.validation with
          | error errs => rfl
          | ok uu =>
            dsimp only
            cases hg : gradeStage env form with
            | error e => rfl
            | ok oo =>
              cases oo with
              | none => rfl
              | some out =>
                obtain ⟨s, ts, hsts⟩ := gradeStage_some_shape env form out hg
                subst hsts
                rfl
        · rw [if_neg hempt]

/-- With a non-null webhook configuration, the dispatcher can only fail
with the HTTP error of the delivery call, never with the
missing-configuration `ValueError`. -/
theorem submit_webhook_no_valueError (postS : Nat → HttpResponse) (form : Form)
    (resp : FormResponse) (ruser : ActingUser) (h : form.webhook ≠ none) :
    ∀ s, SubmitForm.send_submission_webhook postS form resp ruser
      ≠ .error (.valueError s) := by
  intro s hc
  unfold SubmitForm.send_submission_webhook at hc
  cases hw : form.webhook with
  | none => exact h hw
  | some wh =>
    rw [hw] at hc
    dsimp only at hc
    cases hrs : raise_for_status (postS 0) with
    | error e =>
      rw [hrs] at hc
      have he : e = .valueError s := by
        injection hc with h2
      unfold raise_for_status at hrs
      split at hrs
      · rw [he] at hrs
        injection hrs with h3
        exact PyError.noConfusion h3
      · exact Except.noConfusion hrs
    | ok rr =>
      rw [hrs] at hc
      cases hm : pyTruthy wh.message <;> rw [hm] at hc <;> simp at hc

/-- **C7** (refuting evidence).  The pipeline schedules the webhook
notifier exactly on the `WEBHOOK_ENABLED` feature flag, without checking
that a webhook is configured: for this open, webhook-enabled form whose
`webhook` is null, the run succeeds and schedules the notifier, and the
scheduled notifier raises `ValueError("Got empty webhook.")` — the
missing-configuration branch the claim calls unreachable. -/
theorem webhook_scheduled_with_null_config_raises :
    (SubmitForm.post env0 [formW] "f1" body0 "ip" "ua" anonUser).1
      = .ok (.success formW respW true)
    ∧ SubmitForm.send_submission_webhook okServer formW respW anonUser
      = .error (.valueError "Got empty webhook.") :=
  ⟨rfl, rfl⟩

/-- **C7** (amended).  The pipeline schedules the webhook notifier
exactly when the form's `WEBHOOK_ENABLED` feature is set; the
missing-configuration error branch is unreachable only for scheduled
forms whose webhook configuration is non-null — the pipeline itself does
not guarantee that. -/
theorem webhook_schedule_flag_and_nonnull_config_safe (env : Env)
    (store : List Form) (fid : String) (body : PartialSubmission)
    (ch ua : String) (ruser : ActingUser) (f : Form) (r : FormResponse) (w : Bool)
    (h : (SubmitForm.post env store fid body ch ua ruser).1 = .ok (.success f r w)) :
    w = f.features.contains "WEBHOOK_ENABLED"
    ∧ (f.webhook ≠ none → ∀ (postS : Nat → HttpResponse) (ruser2 : ActingUser) (s : String),
        SubmitForm.send_submission_webhook postS f r ruser2
          ≠ .error (.valueError s)) :=
  ⟨(post_success_inv env store fid body ch ua ruser f r w h).2.2,
   fun hw postS ruser2 s => submit_webhook_no_valueError postS f r ruser2 hw s⟩

/-- Witness for `webhook_schedule_flag_and_nonnull_config_safe`: the
same scenario as the counterexample but with a configured webhook. -/
theorem webhook_schedule_flag_nonnull_witness :
    true = formW2.features.contains "WEBHOOK_ENABLED"
    ∧ SubmitForm.send_submission_webhook okServer formW2 respW anonUser
      ≠ .error (.valueError "Got empty webhook.") := by
  obtain ⟨h1, h2⟩ :=
    webhook_schedule_flag_and_nonnull_config_safe env0 [formW2] "f1" body0
      "ip" "ua" anonUser formW2 respW true rfl
  exact ⟨h1, h2 (fun hc => Option.noConfusion hc) okServer anonUser
    "Got empty webhook."⟩

/-- An absent non-required question is filled with Python `None` by the
field-completeness loop (for forms with distinct question ids). -/
theorem fillAnswers_fills (qs : List Question) :
    ∀ ans : List (String × PyVal), (qs.map Question.id).Nodup →
      ∀ q ∈ qs, q.required = false → ans.lookup q.id = none →
        ((fillAnswers qs ans).1).lookup q.id = some none := by
  induction qs with
  | nil =>
    intro ans _ q hq
    simp at hq
  | cons p rest ih =>
    intro ans hnd q hq hreq hlook
    rw [List.map_cons, List.nodup_cons] at hnd
    obtain ⟨hpnotin, hndrest⟩ := hnd
    rw [fillAnswers]
    rcases List.mem_cons.mp hq with hqp | hqrest
    · subst hqp
      have hsome : (ans.lookup q.id).isSome = false := by rw [hlook]; rfl
      simp only [hsome, Bool.false_eq_true, if_false, hreq, Bool.not_false, if_true]
      have hone : ((ans ++ [(q.id, (none : PyVal))]).lookup q.id) = some none := by
        rw [lookup_append_right hlook]
        simp [List.lookup]
      have hpres : ((ans ++ [(q.id, (none : PyVal))]).lookup q.id).isSome = true := by
        rw [hone]; rfl
      rw [fillAnswers_preserves rest _ _ hpres, hone]
    · have hqid_ne : q.id ≠ p.id := by
        intro hc
        exact hpnotin (hc ▸ List.mem_map_of_mem Question.id hqrest)
      cases hp1 : (ans.lookup p.id).isSome with
      | true =>
        simp only [hp1, if_true]
        exact ih ans hndrest q hqrest hreq hlook
      | false =>
        cases hp2 : p.required with
        | false =>
          simp only [hp1, Bool.false_eq_true, if_false, hp2, Bool.not_false, if_true]
          apply ih _ hndrest q hqrest hreq
          rw [lookup_append_single_ne ans hqid_ne, hlook]
        | true =>
          simp only [hp1, Bool.false_eq_true, if_false, hp2, Bool.not_true, if_false]
          exact ih ans hndrest q hqrest hreq hlook

/-- **C3**.  For a submission that reaches the field-completeness stage
of an open form (with distinct question ids): the loop's missing-list is
exactly the ids of the required questions absent from the submitted
answers, in form-question order; every absent non-required question is
filled with `None`; and when the missing-list is non-empty the pipeline
terminates with `BadRequest("missing_fields")` carrying exactly that
list, inserting nothing. -/
theorem post_missing_fields_exact (env : Env) (store : List Form) (fid : String)
    (body : PartialSubmission) (ch ua : String) (ruser : ActingUser) (form : Form)
    (a : Option Antispam) (u : Option UserPayload)
    (h1 : find_one store fid = some form)
    (h2 : antispamStage env form ch ua body.captcha = .ok a)
    (h3 : authStage form ruser = .ok u)
    (h4 : (form.questions.map Question.id).Nodup) :
    (fillAnswers form.questions body.response).2
        = missingRequiredIds form.questions body.response
    ∧ (∀ q ∈ form.questions, q.required = false → body.response.lookup q.id = none →
        ((fillAnswers form.questions body.response).1).lookup q.id = some none)
    ∧ (missingRequiredIds form.questions body.response ≠ [] →
        SubmitForm.post env store fid body ch ua ruser =
          (.ok (.badRequest "missing_fields"
            (missingRequiredIds form.questions body.response)), [])) := by
  have hmiss := fillAnswers_missing_eq form.questions body.response h4
  refine ⟨hmiss, fillAnswers_fills form.questions body.response h4, ?_⟩
  intro hne
  have hempty : ((fillAnswers form.questions body.response).2).isEmpty = false := by
    rw [hmiss]
    cases hm : missingRequiredIds form.questions body.response with
    | nil => exact absurd hm hne
    | cons x xs => rfl
  unfold SubmitForm.post
  rw [h1]
  dsimp only
  rw [h2]
  dsimp only
  rw [h3]
  dsimp only
  rw [if_neg (show ¬ ((fillAnswers form.questions body.response).2).isEmpty = true by
    rw [hempty]; exact Bool.false_ne_true), hmiss]

/-- Witness for `post_missing_fields_exact`: a form with an optional and
a required question and an empty submission. -/
theorem post_missing_fields_exact_witness :
    missingRequiredIds formM.questions bodyM.response = ["q1"]
    ∧ SubmitForm.post env0 [formM] "f3" bodyM "ip" "ua" anonUser
        = (.ok (.badRequest "missing_fields"
            (missingRequiredIds formM.questions bodyM.response)), []) := by
  refine ⟨by decide, ?_⟩
  exact (post_missing_fields_exact env0 [formM] "f3" bodyM "ip" "ua" anonUser formM
    (some { ip_hash := "ip#md5", user_agent_hash := "ua#md5", captcha_pass := true })
    none rfl rfl rfl (by decide)).2.2 (by decide)

/-- **C4**.  For a submission that reaches the grading stage of a form
with at least one graded question: if any test result failed, the
pipeline terminates before persistence with `failed_tests`, status 500
when any result carries the reserved return code 99 and 403 otherwise,
reporting exactly the failing results; if all results passed, the
pipeline proceeds to persistence. -/
theorem post_grading_gate (env : Env) (store : List Form) (fid : String)
    (body : PartialSubmission) (ch ua : String) (ruser : ActingUser) (form : Form)
    (a : Option Antispam) (u : Option UserPayload) (results : List TestResult)
    (h1 : find_one store fid = some form)
    (h2 : antispamStage env form ch ua body.captcha = .ok a)
    (h3 : authStage form ruser = .ok u)
    (h4 : (fillAnswers form.questions body.response).2 = [])
    (h5 : env.validation = .ok ())
    (h6 : (form.questions.any fun q => q.data.contains "unittests") = true)
    (h7 : env.unittestResults = .ok results) :
    ((results.all fun t => t.passed) = false →
      SubmitForm.post env store fid body ch ua ruser =
        (.ok (.failedTests
          (if (results.any fun t => t.return_code == 99) = true then 500 else 403)
          (results.filter fun t => !t.passed)), []))
    ∧ ((results.all fun t => t.passed) = true →
      ∃ r, SubmitForm.post env store fid body ch ua ruser =
        (.ok (.success form r (form.features.contains "WEBHOOK_ENABLED")), [r])) := by
  have hgrade_fail : (results.all fun t => t.passed) = false →
      gradeStage env form = .ok (some (.failedTests
        (if (results.any fun t => t.return_code == 99) = true then 500 else 403)
        (results.filter fun t => !t.passed))) := by
    intro hfail
    unfold gradeStage
    rw [if_pos h6, h7]
    dsimp only
    rw [if_neg (show ¬ (results.all fun t => t.passed) = true by
      rw [hfail]; exact Bool.false_ne_true)]
  have hgrade_ok : (results.all fun t => t.passed) = true →
      gradeStage env form = .ok none := by
    intro hall
    unfold gradeStage
    rw [if_pos h6, h7]
    dsimp only
    rw [if_pos hall]
  constructor
  · intro hfail
    unfold SubmitForm.post
    rw [h1]
    dsimp only
    rw [h2]
    dsimp only
    rw [h3]
    dsimp only
    rw [if_pos (show ((fillAnswers form.questions body.response).2).isEmpty = true by
      rw [h4]; rfl), h5]
    dsimp only
    rw [hgrade_fail hfail]
  · intro hall
    refine ⟨{ id := env.freshId, form_id := form.id,
              response := (fillAnswers form.questions body.response).1,
              user := u, antispam := a, timestamp := env.now }, ?_⟩
    unfold SubmitForm.post
    rw [h1]
    dsimp only
    rw [h2]
    dsimp only
    rw [h3]
    dsimp only
    rw [if_pos (show ((fillAnswers form.questions body.response).2).isEmpty = true by
      rw [h4]; rfl), h5]
    dsimp only
    rw [hgrade_ok hall]

/-- Witness for `post_grading_gate`: one passing result plus one failure
carrying the infrastructure code 99 yields the 500 outcome reporting
only the failure. -/
theorem post_grading_gate_witness :
    ([tPass, tFail99].all fun t => t.passed) = false
    ∧ SubmitForm.post envG [formG] "f2" bodyG "ip" "ua" anonUser
        = (.ok (.failedTests
            (if ([tPass, tFail99].any fun t => t.return_code == 99) = true then 500 else 403)
            ([tPass, tFail99].filter fun t => !t.passed)), []) := by
  refine ⟨by decide, ?_⟩
  exact (post_grading_gate envG [formG] "f2" bodyG "ip" "ua" anonUser formG
    (some { ip_hash := "ip#md5", user_agent_hash := "ua#md5", captcha_pass := true })
    none [tPass, tFail99] rfl rfl rfl rfl rfl (by decide) rfl).1 (by decide)
